import Mathlib

/-!
Shallow embedding of the payment backend (Express + Stripe + Supabase).

The repository has three near-duplicate revisions of one service; the
consolidated revision (the one with category routing, the idempotency
check and per-category pricing) is the authority here.  The two HTTP
handlers are embedded as pure functions:

* `webhookHandler` — the POST /webhook route.  Signature verification is
  performed by the external Stripe library (`stripe.webhooks.constructEvent`),
  so the handler is parameterised by that function; the profile store is an
  in-memory map from table name to rows and is modelled as infallible (no
  claim under consideration concerns a store failure, so the 500 path that
  depends on errors injected by the external store is not modelled).

* `createSession` — the POST /create-checkout-session route, up to the
  single outbound provider call: the result either signals the validation
  failure (HTTP 400) or carries the exact request sent to the provider.

JavaScript strings that may be `undefined` are `Option String`; the
truthiness test `if (x)` on such a value is `jsTruthy`, and `x || d` is
`orDefault x d`.
-/

namespace DubaiBack

/-- JS truthiness of a possibly-undefined string: `undefined` and `""` are falsy. -/
def jsTruthy : Option String → Bool
  | none => false
  | some s => !(s == "")

/-- JS `x || d` for a possibly-undefined string `x` and string default `d`. -/
def orDefault (x : Option String) (d : String) : String :=
  match x with
  | none => d
  | some s => if s == "" then d else s

/-- The metadata object attached to a checkout session (flat string fields,
each possibly absent). -/
structure SessionMeta where
  user_type : Option String
  is_gala : Option String
  ticket_type : Option String
deriving DecidableEq, Repr

/-- The checkout-session object carried in `event.data.object`. -/
structure SessionObj where
  id : String
  client_reference_id : String
  metadata : SessionMeta
deriving DecidableEq, Repr

/-- A webhook event as returned by signature verification. -/
structure Event where
  type : String
  object : SessionObj
deriving DecidableEq, Repr

/-- One profile row.  `payment_status` is a string as stored; the other
fields are optional (nullable columns). -/
structure ProfileRecord where
  payment_status : String
  stripe_session_id : Option String
  paid_at : Option String
  is_gala : Option Bool
  ticket_type : Option String
deriving DecidableEq, Repr

/-- One table: rows keyed by `user_id`. -/
abbrev Table := List (String × ProfileRecord)

/-- The profile store: tables keyed by table name. -/
abbrev Store := List (String × Table)

/-- The `select(payment_status).eq(user_id, uid).single()` read: the first
row with the given user id, if any. -/
def findRow : Table → String → Option ProfileRecord
  | [], _ => none
  | p :: rest, uid => if p.1 == uid then some p.2 else findRow rest uid

/-- The update set built by the webhook handler: the three unconditional
fields, plus the optional category-specific fields (absent = not written). -/
structure UpdateData where
  payment_status : String
  stripe_session_id : String
  paid_at : String
  is_gala : Option Bool
  ticket_type : Option String
deriving DecidableEq, Repr

/-- Application of an update set to one row: listed fields overwrite,
absent optional fields leave the stored value untouched. -/
def applyUpdate (u : UpdateData) (r : ProfileRecord) : ProfileRecord where
  payment_status := u.payment_status
  stripe_session_id := some u.stripe_session_id
  paid_at := some u.paid_at
  is_gala :=
    match u.is_gala with
    | some b => some b
    | none => r.is_gala
  ticket_type :=
    match u.ticket_type with
    | some s => some s
    | none => r.ticket_type

/-- The `update(fields).eq(user_id, uid)` write: every row with the given
user id receives the update; a table with no such row is unchanged. -/
def updateRows : Table → String → UpdateData → Table
  | [], _, _ => []
  | p :: rest, uid, u =>
      (if p.1 == uid then (p.1, applyUpdate u p.2) else p) :: updateRows rest uid u

/-- `supabase.from(name)`: the table registered under `name` (empty if absent). -/
def getTable : Store → String → Table
  | [], _ => []
  | p :: rest, name => if p.1 == name then p.2 else getTable rest name

/-- Writing back a table under its name. -/
def setTable : Store → String → Table → Store
  | [], name, t => [(name, t)]
  | p :: rest, name, t =>
      if p.1 == name then (name, t) :: rest else p :: setTable rest name t

/-- Category-to-table dispatch of the webhook handler: the sequential
conditionals on `userType`, with `founder_profiles` as the final else. -/
def tableOf (userType : String) : String :=
  if userType == "exhibitor" then "exhibitor_profiles"
  else if userType == "pitching" then "pitching_profiles"
  else if userType == "visitor" then "visitor_profiles"
  else "founder_profiles"

/-- The handler line `session.metadata.user_type` with default "founder". -/
def sessionUserType (s : SessionObj) : String :=
  orDefault s.metadata.user_type "founder"

/-- The handler line `session.metadata.is_gala` compared to "true". -/
def sessionIsGala (s : SessionObj) : Bool :=
  s.metadata.is_gala == some "true"

/-- The idempotency test `existing && existing.payment_status` equal to "paid". -/
def isPaid : Option ProfileRecord → Bool
  | some r => r.payment_status == "paid"
  | none => false

/-- The `updateData` object: the three unconditional fields, then
`is_gala` when the user type is founder, else `ticket_type` when the user
type is visitor and the ticket type is truthy. -/
def mkUpdateData (userType : String) (isGala : Bool) (ticketType : Option String)
    (stripeSessionId now : String) : UpdateData :=
  let base : UpdateData :=
    { payment_status := "paid"
      stripe_session_id := stripeSessionId
      paid_at := now
      is_gala := none
      ticket_type := none }
  if userType == "founder" then { base with is_gala := some isGala }
  else if userType == "visitor" && jsTruthy ticketType then
    { base with ticket_type := ticketType }
  else base

/-- The response sent by the webhook route. -/
inductive WebhookResponse where
  | received
  | webhookError (msg : String)
deriving DecidableEq, Repr

/-- HTTP status of each webhook response. -/
def WebhookResponse.httpStatus : WebhookResponse → Nat
  | .received => 200
  | .webhookError _ => 400

/-- Outcome of one webhook delivery: the response, the resulting store and
the number of store reads and writes performed. -/
structure HandlerResult where
  response : WebhookResponse
  store : Store
  storeReads : Nat
  storeWrites : Nat
deriving DecidableEq, Repr

/-- The POST /webhook route.  `constructEvent` is the external signature
verifier applied to the raw body, the signature header and the signing
secret; a verification failure is answered 400 before any store access.
A verified event of another kind is acknowledged untouched.  A completed
checkout reads the target-table row for the correlation id, short-circuits
when it is already paid, and otherwise writes the update set. -/
def webhookHandler (constructEvent : String → String → String → Except String Event)
    (rawBody sig secret now : String) (store : Store) : HandlerResult :=
  match constructEvent rawBody sig secret with
  | .error msg => ⟨.webhookError msg, store, 0, 0⟩
  | .ok event =>
    if event.type == "checkout.session.completed" then
      let session := event.object
      let userId := session.client_reference_id
      let stripeSessionId := session.id
      let userType := sessionUserType session
      let isGala := sessionIsGala session
      let ticketType := session.metadata.ticket_type
      let tableName := tableOf userType
      let existing := findRow (getTable store tableName) userId
      if isPaid existing then
        ⟨.received, store, 1, 0⟩
      else
        let u := mkUpdateData userType isGala ticketType stripeSessionId now
        let newStore := setTable store tableName (updateRows (getTable store tableName) userId u)
        ⟨.received, newStore, 1, 1⟩
    else ⟨.received, store, 0, 0⟩

/-- The per-category price, product name, description and redirect target
resolved by the create-checkout-session route. -/
structure CheckoutConfig where
  unitAmount : Nat
  productName : String
  description : String
  returnUrl : String
deriving DecidableEq, Repr

/-- The sequential logic switch of the create-checkout-session route:
founder defaults, then the pitching, exhibitor, visitor and founder
branches.  `unitAmount` is in cents. -/
def checkoutConfig (companyName : String) (type : Option String) (isGala : Bool)
    (ticketType : Option String) : CheckoutConfig :=
  let dflt : CheckoutConfig :=
    { unitAmount := 50000
      productName := "Startup Verification: " ++ companyName
      description := "Official Investarise Global Startup Pass"
      returnUrl := "https://www.investariseglobal.com/founder-form" }
  if type == some "pitching" then
    { unitAmount := 250000
      productName := "Pitching Slot: " ++ companyName
      description := "Official 10-minute Pitching Slot + Startup Pass"
      returnUrl := "https://www.investariseglobal.com/pitching-form" }
  else if type == some "exhibitor" then
    { unitAmount := 272500
      productName := "Exhibitor Registration: " ++ companyName
      description := "Official Investarise Global Exhibitor Pass (approx. 10,000 AED)"
      returnUrl := "https://www.investariseglobal.com/exhibitor-form" }
  else if type == some "visitor" then
    if ticketType == some "premium" then
      { unitAmount := 50000
        productName := "Visitor Premium VIP Access: " ++ companyName
        description := "Includes Gala Dinner, Lunch, Dinner, and Full Day VIP Access"
        returnUrl := "https://www.investariseglobal.com/visitor-form" }
    else
      { unitAmount := 25000
        productName := "Visitor Standard Access Pass: " ++ companyName
        description := "Includes Lunch, Dinner, and Full Day Event Access"
        returnUrl := "https://www.investariseglobal.com/visitor-form" }
  else if type == some "founder" then
    if isGala then
      { dflt with
        unitAmount := 100000
        productName := "Founder Pass + Gala Dinner: " ++ companyName
        description := "Official Startup Pass including Networking Gala Dinner" }
    else dflt
  else dflt

/-- Price resolution as a function of category, gala flag and ticket tier
alone (in cents): the `unitAmount` component of the logic switch. -/
def resolvePrice (type : Option String) (isGala : Bool) (ticketType : Option String) : Nat :=
  (checkoutConfig "" type isGala ticketType).unitAmount

/-- The request body of POST /create-checkout-session after destructuring. -/
structure CreateReq where
  userId : Option String
  email : Option String
  companyName : String
  type : Option String
  isGala : Bool
  ticketType : Option String
deriving DecidableEq, Repr

/-- The exact request passed to `stripe.checkout.sessions.create`. -/
structure SessionRequest where
  customer_email : String
  client_reference_id : String
  unit_amount : Nat
  product_name : String
  description : String
  success_url : String
  cancel_url : String
  meta_company_name : String
  meta_user_id : String
  meta_user_type : String
  meta_is_gala : String
  meta_ticket_type : String
deriving DecidableEq, Repr

/-- Outcome of the create-checkout-session route up to the provider call:
either the validation failure (answered 400, no call made) or the single
outbound call with its request.  What the route answers after the call
depends on the external provider and is not modelled. -/
inductive CreateResult where
  | validationError
  | providerCall (r : SessionRequest)
deriving DecidableEq, Repr

/-- HTTP status determined by the route itself: 400 for the validation
failure, undetermined (provider-dependent) after a call. -/
def CreateResult.httpStatus : CreateResult → Option Nat
  | .validationError => some 400
  | .providerCall _ => none

/-- Number of provider calls made. -/
def CreateResult.providerCalls : CreateResult → Nat
  | .validationError => 0
  | .providerCall _ => 1

/-- The POST /create-checkout-session route: the `!userId || !email`
validation gate, then the logic switch and the provider request with the
stringified metadata (type with default "founder", gala flag as "true"/"false",
ticket type with default empty). -/
def createSession (req : CreateReq) : CreateResult :=
  if !jsTruthy req.userId || !jsTruthy req.email then .validationError
  else
    let cfg := checkoutConfig req.companyName req.type req.isGala req.ticketType
    .providerCall
      { customer_email := req.email.getD ""
        client_reference_id := req.userId.getD ""
        unit_amount := cfg.unitAmount
        product_name := cfg.productName
        description := cfg.description
        success_url := cfg.returnUrl ++ "?success=true"
        cancel_url := cfg.returnUrl ++ "?canceled=true"
        meta_company_name := req.companyName
        meta_user_id := req.userId.getD ""
        meta_user_type := orDefault req.type "founder"
        meta_is_gala := if req.isGala then "true" else "false"
        meta_ticket_type := orDefault req.ticketType "" }

end DubaiBack

namespace DubaiBack

theorem getTable_setTable_self (s : Store) (name : String) (t : Table) :
    getTable (setTable s name t) name = t := by
  induction s with
  | nil => simp [setTable, getTable]
  | cons p rest ih =>
      by_cases h : p.1 = name
      · simp [setTable, getTable, h]
      · simp [setTable, getTable, h, ih]

theorem getTable_setTable_ne (s : Store) (name other : String) (t : Table)
    (h : other ≠ name) :
    getTable (setTable s name t) other = getTable s other := by
  have h' : ¬(name = other) := fun hh => h hh.symm
  induction s with
  | nil => simp [setTable, getTable, h']
  | cons p rest ih =>
      by_cases hp : p.1 = name
      · simp [setTable, getTable, hp, h']
      · by_cases hq : p.1 = other
        · simp [setTable, getTable, hp, hq, h, h']
        · simp [setTable, getTable, hp, hq, ih]

theorem webhookHandler_completed_paid
    (ce : String → String → String → Except String Event)
    (raw sig secret now : String) (store : Store) (e : Event)
    (hce : ce raw sig secret = Except.ok e)
    (ht : e.type = "checkout.session.completed")
    (hp : isPaid (findRow (getTable store (tableOf (sessionUserType e.object)))
            e.object.client_reference_id) = true) :
    webhookHandler ce raw sig secret now store =
      ⟨WebhookResponse.received, store, 1, 0⟩ := by
  unfold webhookHandler
  rw [hce]
  simp [ht, hp]

theorem webhookHandler_completed_unpaid
    (ce : String → String → String → Except String Event)
    (raw sig secret now : String) (store : Store) (e : Event)
    (hce : ce raw sig secret = Except.ok e)
    (ht : e.type = "checkout.session.completed")
    (hp : isPaid (findRow (getTable store (tableOf (sessionUserType e.object)))
            e.object.client_reference_id) = false) :
    webhookHandler ce raw sig secret now store =
      ⟨WebhookResponse.received,
       setTable store (tableOf (sessionUserType e.object))
         (updateRows (getTable store (tableOf (sessionUserType e.object)))
           e.object.client_reference_id
           (mkUpdateData (sessionUserType e.object) (sessionIsGala e.object)
             e.object.metadata.ticket_type e.object.id now)),
       1, 1⟩ := by
  unfold webhookHandler
  rw [hce]
  simp [ht, hp]

end DubaiBack

namespace DubaiBack

/-- C1: for every correlation id whose profile record already has
payment status "paid", processing any further completed-checkout event
for that id performs zero store writes, leaves the store (and hence the
record) unchanged, and responds success: the unpaid-to-paid transition
happens at most once no matter how many completion events are delivered. -/
theorem alreadyPaid_completion_noop
    (ce : String → String → String → Except String Event)
    (raw sig secret now : String) (store : Store) (e : Event) (r : ProfileRecord)
    (hce : ce raw sig secret = Except.ok e)
    (ht : e.type = "checkout.session.completed")
    (hr : findRow (getTable store (tableOf (sessionUserType e.object)))
            e.object.client_reference_id = some r)
    (hpaid : r.payment_status = "paid") :
    webhookHandler ce raw sig secret now store =
      ⟨WebhookResponse.received, store, 1, 0⟩ := by
  apply webhookHandler_completed_paid ce raw sig secret now store e hce ht
  rw [hr]
  simp [isPaid, hpaid]

/-- Witness for C1: a concrete already-paid founder profile, a concrete
completion event for its id; re-delivery returns the store untouched. -/
theorem alreadyPaid_completion_noop_witness :
    webhookHandler
      (fun _ _ _ => Except.ok
        ⟨"checkout.session.completed",
         ⟨"cs_2", "user_1", ⟨some "founder", some "true", none⟩⟩⟩)
      "rawbody" "sighdr" "whsec" "2026-01-02T00:00:00Z"
      [("founder_profiles",
        [("user_1", ⟨"paid", some "cs_1", some "2026-01-01T00:00:00Z", some false, none⟩)])] =
      ⟨WebhookResponse.received,
       [("founder_profiles",
         [("user_1", ⟨"paid", some "cs_1", some "2026-01-01T00:00:00Z", some false, none⟩)])],
       1, 0⟩ :=
  alreadyPaid_completion_noop _ "rawbody" "sighdr" "whsec" "2026-01-02T00:00:00Z"
    _ _ ⟨"paid", some "cs_1", some "2026-01-01T00:00:00Z", some false, none⟩
    rfl rfl (by decide) rfl

/-- C2: a delivery whose signature verification fails is answered with a
client error (HTTP 400) and triggers no store read and no store write;
no further processing of the event occurs. -/
theorem invalidSignature_rejected
    (ce : String → String → String → Except String Event)
    (raw sig secret now msg : String) (store : Store)
    (hce : ce raw sig secret = Except.error msg) :
    webhookHandler ce raw sig secret now store =
      ⟨WebhookResponse.webhookError msg, store, 0, 0⟩ ∧
    (webhookHandler ce raw sig secret now store).response.httpStatus = 400 := by
  unfold webhookHandler
  rw [hce]
  exact ⟨rfl, rfl⟩

/-- Witness for C2: a concrete verifier that rejects, a concrete store;
the handler answers 400 and the store is untouched. -/
theorem invalidSignature_rejected_witness :
    webhookHandler (fun _ _ _ => Except.error "No signatures found")
      "rawbody" "badsig" "whsec" "2026-01-02T00:00:00Z"
      [("founder_profiles", [("user_1", ⟨"unpaid", none, none, none, none⟩)])] =
      ⟨WebhookResponse.webhookError "No signatures found",
       [("founder_profiles", [("user_1", ⟨"unpaid", none, none, none, none⟩)])], 0, 0⟩ ∧
    (webhookHandler (fun _ _ _ => Except.error "No signatures found")
      "rawbody" "badsig" "whsec" "2026-01-02T00:00:00Z"
      [("founder_profiles", [("user_1", ⟨"unpaid", none, none, none, none⟩)])]).response.httpStatus = 400 :=
  invalidSignature_rejected _ "rawbody" "badsig" "whsec" "2026-01-02T00:00:00Z"
    "No signatures found" _ rfl

/-- C8: a verified event of any kind other than completed checkout is
acknowledged with the success response (HTTP 200) and causes zero store
reads and zero store writes, leaving the store unchanged. -/
theorem irrelevantEventKind_acknowledged
    (ce : String → String → String → Except String Event)
    (raw sig secret now : String) (store : Store) (e : Event)
    (hce : ce raw sig secret = Except.ok e)
    (ht : e.type ≠ "checkout.session.completed") :
    webhookHandler ce raw sig secret now store =
      ⟨WebhookResponse.received, store, 0, 0⟩ ∧
    WebhookResponse.received.httpStatus = 200 := by
  refine ⟨?_, rfl⟩
  unfold webhookHandler
  rw [hce]
  simp [ht]

/-- Witness for C8: a concrete payment-intent event; the handler
acknowledges it and the store is untouched. -/
theorem irrelevantEventKind_acknowledged_witness :
    webhookHandler
      (fun _ _ _ => Except.ok
        ⟨"payment_intent.succeeded", ⟨"pi_1", "user_1", ⟨some "founder", none, none⟩⟩⟩)
      "rawbody" "sighdr" "whsec" "2026-01-02T00:00:00Z"
      [("founder_profiles", [("user_1", ⟨"unpaid", none, none, none, none⟩)])] =
      ⟨WebhookResponse.received,
       [("founder_profiles", [("user_1", ⟨"unpaid", none, none, none, none⟩)])], 0, 0⟩ ∧
    WebhookResponse.received.httpStatus = 200 :=
  irrelevantEventKind_acknowledged _ "rawbody" "sighdr" "whsec" "2026-01-02T00:00:00Z"
    _ _ rfl (by decide)

end DubaiBack

namespace DubaiBack

/-- C3: a verified completed-checkout event whose category metadata is one
of founder, exhibitor, pitching, visitor has its update applied to the
table named after that category (the category name suffixed with
_profiles) and to no other table. -/
theorem category_routing
    (ce : String → String → String → Except String Event)
    (raw sig secret now : String) (store : Store) (e : Event) (c name : String)
    (hce : ce raw sig secret = Except.ok e)
    (ht : e.type = "checkout.session.completed")
    (hc : c = "founder" ∨ c = "exhibitor" ∨ c = "pitching" ∨ c = "visitor")
    (hm : e.object.metadata.user_type = some c)
    (hp : isPaid (findRow (getTable store (c ++ "_profiles"))
            e.object.client_reference_id) = false)
    (hname : name ≠ c ++ "_profiles") :
    tableOf (sessionUserType e.object) = c ++ "_profiles" ∧
    getTable (webhookHandler ce raw sig secret now store).store name = getTable store name ∧
    getTable (webhookHandler ce raw sig secret now store).store (c ++ "_profiles") =
      updateRows (getTable store (c ++ "_profiles")) e.object.client_reference_id
        (mkUpdateData c (sessionIsGala e.object) e.object.metadata.ticket_type
          e.object.id now) := by
  have hut : sessionUserType e.object = c := by
    rcases hc with h | h | h | h <;> subst h <;> simp [sessionUserType, orDefault, hm]
  have htab : tableOf (sessionUserType e.object) = c ++ "_profiles" := by
    rw [hut]
    rcases hc with h | h | h | h <;> subst h <;> decide
  have hh := webhookHandler_completed_unpaid ce raw sig secret now store e hce ht
    (by rw [htab]; exact hp)
  rw [htab, hut] at hh
  refine ⟨htab, ?_, ?_⟩
  · rw [hh]
    exact getTable_setTable_ne store (c ++ "_profiles") name _ hname
  · rw [hh]
    exact getTable_setTable_self store (c ++ "_profiles") _

/-- Witness for C3: a concrete exhibitor event over a store holding an
unpaid exhibitor row and a founder table; the exhibitor table receives
the update, the founder table is untouched. -/
theorem category_routing_witness :
    tableOf (sessionUserType ⟨"cs_9", "user_7", ⟨some "exhibitor", none, none⟩⟩) =
      "exhibitor" ++ "_profiles" ∧
    getTable (webhookHandler
        (fun _ _ _ => Except.ok
          ⟨"checkout.session.completed", ⟨"cs_9", "user_7", ⟨some "exhibitor", none, none⟩⟩⟩)
        "rawbody" "sighdr" "whsec" "2026-01-02T00:00:00Z"
        [("exhibitor_profiles", [("user_7", ⟨"unpaid", none, none, none, none⟩)]),
         ("founder_profiles", [])]).store "founder_profiles" =
      getTable
        [("exhibitor_profiles", [("user_7", ⟨"unpaid", none, none, none, none⟩)]),
         ("founder_profiles", [])] "founder_profiles" ∧
    getTable (webhookHandler
        (fun _ _ _ => Except.ok
          ⟨"checkout.session.completed", ⟨"cs_9", "user_7", ⟨some "exhibitor", none, none⟩⟩⟩)
        "rawbody" "sighdr" "whsec" "2026-01-02T00:00:00Z"
        [("exhibitor_profiles", [("user_7", ⟨"unpaid", none, none, none, none⟩)]),
         ("founder_profiles", [])]).store ("exhibitor" ++ "_profiles") =
      updateRows
        (getTable
          [("exhibitor_profiles", [("user_7", ⟨"unpaid", none, none, none, none⟩)]),
           ("founder_profiles", [])] ("exhibitor" ++ "_profiles")) "user_7"
        (mkUpdateData "exhibitor"
          (sessionIsGala ⟨"cs_9", "user_7", ⟨some "exhibitor", none, none⟩⟩) none "cs_9"
          "2026-01-02T00:00:00Z") :=
  category_routing
    (fun _ _ _ => Except.ok
      ⟨"checkout.session.completed", ⟨"cs_9", "user_7", ⟨some "exhibitor", none, none⟩⟩⟩)
    "rawbody" "sighdr" "whsec" "2026-01-02T00:00:00Z"
    [("exhibitor_profiles", [("user_7", ⟨"unpaid", none, none, none, none⟩)]),
     ("founder_profiles", [])]
    ⟨"checkout.session.completed", ⟨"cs_9", "user_7", ⟨some "exhibitor", none, none⟩⟩⟩
    "exhibitor" "founder_profiles" rfl rfl (Or.inr (Or.inl rfl)) rfl
    (by decide) (by decide)

/-- C4: a verified completed-checkout event carrying no category metadata
is treated as a founder event and its update is applied to the founder
table (and to no other table). -/
theorem missing_category_defaults_to_founder
    (ce : String → String → String → Except String Event)
    (raw sig secret now : String) (store : Store) (e : Event) (name : String)
    (hce : ce raw sig secret = Except.ok e)
    (ht : e.type = "checkout.session.completed")
    (hm : e.object.metadata.user_type = none)
    (hp : isPaid (findRow (getTable store "founder_profiles")
            e.object.client_reference_id) = false)
    (hname : name ≠ "founder_profiles") :
    sessionUserType e.object = "founder" ∧
    tableOf (sessionUserType e.object) = "founder_profiles" ∧
    getTable (webhookHandler ce raw sig secret now store).store name = getTable store name ∧
    getTable (webhookHandler ce raw sig secret now store).store "founder_profiles" =
      updateRows (getTable store "founder_profiles") e.object.client_reference_id
        (mkUpdateData "founder" (sessionIsGala e.object) e.object.metadata.ticket_type
          e.object.id now) := by
  have hut : sessionUserType e.object = "founder" := by
    simp [sessionUserType, orDefault, hm]
  have htab : tableOf (sessionUserType e.object) = "founder_profiles" := by
    rw [hut]
    decide
  have hh := webhookHandler_completed_unpaid ce raw sig secret now store e hce ht
    (by rw [htab]; exact hp)
  rw [htab, hut] at hh
  refine ⟨hut, htab, ?_, ?_⟩
  · rw [hh]
    exact getTable_setTable_ne store "founder_profiles" name _ hname
  · rw [hh]
    exact getTable_setTable_self store "founder_profiles" _

/-- Witness for C4: a concrete event without category metadata over a
store holding an unpaid founder row and a visitor table; the founder
table receives the update, the visitor table is untouched. -/
theorem missing_category_defaults_to_founder_witness :
    sessionUserType ⟨"cs_3", "user_2", ⟨none, none, none⟩⟩ = "founder" ∧
    tableOf (sessionUserType ⟨"cs_3", "user_2", ⟨none, none, none⟩⟩) = "founder_profiles" ∧
    getTable (webhookHandler
        (fun _ _ _ => Except.ok
          ⟨"checkout.session.completed", ⟨"cs_3", "user_2", ⟨none, none, none⟩⟩⟩)
        "rawbody" "sighdr" "whsec" "2026-01-02T00:00:00Z"
        [("founder_profiles", [("user_2", ⟨"unpaid", none, none, none, none⟩)]),
         ("visitor_profiles", [])]).store "visitor_profiles" =
      getTable
        [("founder_profiles", [("user_2", ⟨"unpaid", none, none, none, none⟩)]),
         ("visitor_profiles", [])] "visitor_profiles" ∧
    getTable (webhookHandler
        (fun _ _ _ => Except.ok
          ⟨"checkout.session.completed", ⟨"cs_3", "user_2", ⟨none, none, none⟩⟩⟩)
        "rawbody" "sighdr" "whsec" "2026-01-02T00:00:00Z"
        [("founder_profiles", [("user_2", ⟨"unpaid", none, none, none, none⟩)]),
         ("visitor_profiles", [])]).store "founder_profiles" =
      updateRows
        (getTable
          [("founder_profiles", [("user_2", ⟨"unpaid", none, none, none, none⟩)]),
           ("visitor_profiles", [])] "founder_profiles") "user_2"
        (mkUpdateData "founder" (sessionIsGala ⟨"cs_3", "user_2", ⟨none, none, none⟩⟩)
          none "cs_3" "2026-01-02T00:00:00Z") :=
  missing_category_defaults_to_founder
    (fun _ _ _ => Except.ok
      ⟨"checkout.session.completed", ⟨"cs_3", "user_2", ⟨none, none, none⟩⟩⟩)
    "rawbody" "sighdr" "whsec" "2026-01-02T00:00:00Z"
    [("founder_profiles", [("user_2", ⟨"unpaid", none, none, none, none⟩)]),
     ("visitor_profiles", [])]
    ⟨"checkout.session.completed", ⟨"cs_3", "user_2", ⟨none, none, none⟩⟩⟩
    "visitor_profiles" rfl rfl rfl (by decide) (by decide)

end DubaiBack

namespace DubaiBack

theorem mkUpdateData_payment_status (ut : String) (g : Bool) (tk : Option String)
    (sid t : String) : (mkUpdateData ut g tk sid t).payment_status = "paid" := by
  simp only [mkUpdateData]
  split
  · rfl
  · split <;> rfl

theorem mkUpdateData_stripe_session_id (ut : String) (g : Bool) (tk : Option String)
    (sid t : String) : (mkUpdateData ut g tk sid t).stripe_session_id = sid := by
  simp only [mkUpdateData]
  split
  · rfl
  · split <;> rfl

theorem mkUpdateData_paid_at (ut : String) (g : Bool) (tk : Option String)
    (sid t : String) : (mkUpdateData ut g tk sid t).paid_at = t := by
  simp only [mkUpdateData]
  split
  · rfl
  · split <;> rfl

theorem mkUpdateData_is_gala_spec (ut : String) (g : Bool) (tk : Option String)
    (sid t : String) :
    (mkUpdateData ut g tk sid t).is_gala = if ut = "founder" then some g else none := by
  by_cases hf : ut = "founder" <;> simp [mkUpdateData, hf, apply_ite]

theorem mkUpdateData_ticket_type_spec (ut : String) (g : Bool) (tk : Option String)
    (sid t : String) :
    (mkUpdateData ut g tk sid t).ticket_type =
      if ut = "visitor" ∧ jsTruthy tk = true then tk else none := by
  by_cases hf : ut = "founder"
  · subst hf
    simp [mkUpdateData]
  · by_cases hv : ut = "visitor" ∧ jsTruthy tk = true
    · simp [mkUpdateData, hf, hv, hv.1, hv.2]
    · simp only [mkUpdateData, if_neg hv]
      simp only [beq_iff_eq, if_neg hf]
      rcases Decidable.not_and_iff_or_not.mp hv with h | h
      · simp [h]
      · simp [Bool.not_eq_true] at h
        simp [h]

theorem jsTruthy_ne_none (tk : Option String) (h : jsTruthy tk = true) : tk ≠ none := by
  cases tk with
  | none => simp [jsTruthy] at h
  | some s => simp

/-- C6: the update set of a verified completed-checkout event always
carries payment status "paid", the session id and the timestamp; it
carries the gala flag exactly when the effective category is founder, and
then with the gala value decoded from the metadata, so a non-founder
event never writes the gala field. -/
theorem gala_field_gating
    (ce : String → String → String → Except String Event)
    (raw sig secret now : String) (store : Store) (e : Event)
    (hce : ce raw sig secret = Except.ok e)
    (ht : e.type = "checkout.session.completed")
    (hp : isPaid (findRow (getTable store (tableOf (sessionUserType e.object)))
            e.object.client_reference_id) = false) :
    webhookHandler ce raw sig secret now store =
      ⟨WebhookResponse.received,
       setTable store (tableOf (sessionUserType e.object))
         (updateRows (getTable store (tableOf (sessionUserType e.object)))
           e.object.client_reference_id
           (mkUpdateData (sessionUserType e.object) (sessionIsGala e.object)
             e.object.metadata.ticket_type e.object.id now)),
       1, 1⟩ ∧
    (mkUpdateData (sessionUserType e.object) (sessionIsGala e.object)
      e.object.metadata.ticket_type e.object.id now).payment_status = "paid" ∧
    (mkUpdateData (sessionUserType e.object) (sessionIsGala e.object)
      e.object.metadata.ticket_type e.object.id now).stripe_session_id = e.object.id ∧
    (mkUpdateData (sessionUserType e.object) (sessionIsGala e.object)
      e.object.metadata.ticket_type e.object.id now).paid_at = now ∧
    ((mkUpdateData (sessionUserType e.object) (sessionIsGala e.object)
      e.object.metadata.ticket_type e.object.id now).is_gala ≠ none ↔
      sessionUserType e.object = "founder") ∧
    (sessionUserType e.object = "founder" →
      (mkUpdateData (sessionUserType e.object) (sessionIsGala e.object)
        e.object.metadata.ticket_type e.object.id now).is_gala =
        some (sessionIsGala e.object)) := by
  refine ⟨webhookHandler_completed_unpaid ce raw sig secret now store e hce ht hp,
    mkUpdateData_payment_status _ _ _ _ _,
    mkUpdateData_stripe_session_id _ _ _ _ _,
    mkUpdateData_paid_at _ _ _ _ _, ?_, ?_⟩
  · rw [mkUpdateData_is_gala_spec]
    by_cases hf : sessionUserType e.object = "founder" <;> simp [hf]
  · intro hf
    rw [mkUpdateData_is_gala_spec, if_pos hf]

/-- Witness for C6: a concrete founder event with gala metadata "true"
over a store holding an unpaid founder row; the handler writes the
update set, which carries the gala flag set to true. -/
theorem gala_field_gating_witness :
    webhookHandler
      (fun _ _ _ => Except.ok
        ⟨"checkout.session.completed", ⟨"cs_4", "user_3", ⟨some "founder", some "true", none⟩⟩⟩)
      "rawbody" "sighdr" "whsec" "2026-01-02T00:00:00Z"
      [("founder_profiles", [("user_3", ⟨"unpaid", none, none, none, none⟩)])] =
      ⟨WebhookResponse.received,
       setTable [("founder_profiles", [("user_3", ⟨"unpaid", none, none, none, none⟩)])]
         (tableOf (sessionUserType ⟨"cs_4", "user_3", ⟨some "founder", some "true", none⟩⟩))
         (updateRows
           (getTable [("founder_profiles", [("user_3", ⟨"unpaid", none, none, none, none⟩)])]
             (tableOf (sessionUserType ⟨"cs_4", "user_3", ⟨some "founder", some "true", none⟩⟩)))
           "user_3"
           (mkUpdateData (sessionUserType ⟨"cs_4", "user_3", ⟨some "founder", some "true", none⟩⟩)
             (sessionIsGala ⟨"cs_4", "user_3", ⟨some "founder", some "true", none⟩⟩)
             none "cs_4" "2026-01-02T00:00:00Z")),
       1, 1⟩ ∧
    (mkUpdateData (sessionUserType ⟨"cs_4", "user_3", ⟨some "founder", some "true", none⟩⟩)
      (sessionIsGala ⟨"cs_4", "user_3", ⟨some "founder", some "true", none⟩⟩)
      none "cs_4" "2026-01-02T00:00:00Z").payment_status = "paid" ∧
    (mkUpdateData (sessionUserType ⟨"cs_4", "user_3", ⟨some "founder", some "true", none⟩⟩)
      (sessionIsGala ⟨"cs_4", "user_3", ⟨some "founder", some "true", none⟩⟩)
      none "cs_4" "2026-01-02T00:00:00Z").stripe_session_id = "cs_4" ∧
    (mkUpdateData (sessionUserType ⟨"cs_4", "user_3", ⟨some "founder", some "true", none⟩⟩)
      (sessionIsGala ⟨"cs_4", "user_3", ⟨some "founder", some "true", none⟩⟩)
      none "cs_4" "2026-01-02T00:00:00Z").paid_at = "2026-01-02T00:00:00Z" ∧
    ((mkUpdateData (sessionUserType ⟨"cs_4", "user_3", ⟨some "founder", some "true", none⟩⟩)
      (sessionIsGala ⟨"cs_4", "user_3", ⟨some "founder", some "true", none⟩⟩)
      none "cs_4" "2026-01-02T00:00:00Z").is_gala ≠ none ↔
      sessionUserType ⟨"cs_4", "user_3", ⟨some "founder", some "true", none⟩⟩ = "founder") ∧
    (sessionUserType ⟨"cs_4", "user_3", ⟨some "founder", some "true", none⟩⟩ = "founder" →
      (mkUpdateData (sessionUserType ⟨"cs_4", "user_3", ⟨some "founder", some "true", none⟩⟩)
        (sessionIsGala ⟨"cs_4", "user_3", ⟨some "founder", some "true", none⟩⟩)
        none "cs_4" "2026-01-02T00:00:00Z").is_gala =
        some (sessionIsGala ⟨"cs_4", "user_3", ⟨some "founder", some "true", none⟩⟩)) :=
  gala_field_gating
    (fun _ _ _ => Except.ok
      ⟨"checkout.session.completed", ⟨"cs_4", "user_3", ⟨some "founder", some "true", none⟩⟩⟩)
    "rawbody" "sighdr" "whsec" "2026-01-02T00:00:00Z"
    [("founder_profiles", [("user_3", ⟨"unpaid", none, none, none, none⟩)])]
    ⟨"checkout.session.completed", ⟨"cs_4", "user_3", ⟨some "founder", some "true", none⟩⟩⟩
    rfl rfl (by decide)

/-- C7: the update set carries the ticket type exactly when the effective
category is visitor and the ticket tier string is non-empty; a visitor
event with tier "premium" writes "premium", and whenever the tier is
empty or absent the stored ticket type survives the row update
unchanged. -/
theorem visitor_ticket_gating :
    (∀ ut g tk sid t,
      ((mkUpdateData ut g tk sid t).ticket_type ≠ none ↔
        (ut = "visitor" ∧ jsTruthy tk = true))) ∧
    (∀ g s sid t, s ≠ "" →
      (mkUpdateData "visitor" g (some s) sid t).ticket_type = some s) ∧
    (∀ ut g tk sid t r, jsTruthy tk = false →
      (applyUpdate (mkUpdateData ut g tk sid t) r).ticket_type = r.ticket_type) := by
  refine ⟨?_, ?_, ?_⟩
  · intro ut g tk sid t
    rw [mkUpdateData_ticket_type_spec]
    by_cases h : ut = "visitor" ∧ jsTruthy tk = true
    · simp [h, jsTruthy_ne_none tk h.2]
    · simp [h]
  · intro g s sid t hs
    rw [mkUpdateData_ticket_type_spec]
    simp [jsTruthy, hs]
  · intro ut g tk sid t r h
    have : (mkUpdateData ut g tk sid t).ticket_type = none := by
      rw [mkUpdateData_ticket_type_spec]
      simp [h]
    simp [applyUpdate, this]

/-- Witness for C7: a premium visitor update set carries the premium
tier, and an update set with absent tier leaves a stored standard tier
in place. -/
theorem visitor_ticket_gating_witness :
    (mkUpdateData "visitor" false (some "premium") "cs_5" "2026-01-02T00:00:00Z").ticket_type =
      some "premium" ∧
    (applyUpdate (mkUpdateData "visitor" false none "cs_6" "2026-01-03T00:00:00Z")
      ⟨"unpaid", none, none, none, some "standard"⟩).ticket_type =
      (⟨"unpaid", none, none, none, some "standard"⟩ : ProfileRecord).ticket_type :=
  ⟨visitor_ticket_gating.2.1 false "premium" "cs_5" "2026-01-02T00:00:00Z" (by decide),
   visitor_ticket_gating.2.2 "visitor" false none "cs_6" "2026-01-03T00:00:00Z"
     ⟨"unpaid", none, none, none, some "standard"⟩ (by decide)⟩

end DubaiBack

namespace DubaiBack

theorem checkoutConfig_unitAmount_pure (cn : String) (t : Option String)
    (g : Bool) (tk : Option String) :
    (checkoutConfig cn t g tk).unitAmount = resolvePrice t g tk := by
  by_cases h1 : t = some "pitching"
  · simp [resolvePrice, checkoutConfig, h1]
  · by_cases h2 : t = some "exhibitor"
    · simp [resolvePrice, checkoutConfig, h1, h2]
    · by_cases h3 : t = some "visitor"
      · by_cases h4 : tk = some "premium" <;>
          simp [resolvePrice, checkoutConfig, h1, h2, h3, h4]
      · by_cases h5 : t = some "founder"
        · cases g <;> simp [resolvePrice, checkoutConfig, h1, h2, h3, h5]
        · simp [resolvePrice, checkoutConfig, h1, h2, h3, h5]

/-- C5: price resolution in createSession is a pure function of the
category, the gala flag and the ticket tier (the company name does not
influence it, and the provider is always charged exactly the resolved
amount), with the table: founder 50000 cents, founder with gala 100000
cents, exhibitor 272500 cents, pitching 250000 cents, visitor standard
25000 cents, visitor premium 50000 cents. -/
theorem pricing_resolution :
    (∀ cn t g tk, (checkoutConfig cn t g tk).unitAmount = resolvePrice t g tk) ∧
    (∀ req r, createSession req = CreateResult.providerCall r →
      r.unit_amount = resolvePrice req.type req.isGala req.ticketType) ∧
    (∀ tk, resolvePrice (some "founder") false tk = 50000) ∧
    (∀ tk, resolvePrice (some "founder") true tk = 100000) ∧
    (∀ g tk, resolvePrice (some "exhibitor") g tk = 272500) ∧
    (∀ g tk, resolvePrice (some "pitching") g tk = 250000) ∧
    (∀ g, resolvePrice (some "visitor") g (some "standard") = 25000) ∧
    (∀ g, resolvePrice (some "visitor") g (some "premium") = 50000) := by
  refine ⟨checkoutConfig_unitAmount_pure, ?_,
    fun _ => rfl, fun _ => rfl, fun _ _ => rfl, fun _ _ => rfl, fun _ => rfl, fun _ => rfl⟩
  intro req r h
  unfold createSession at h
  by_cases hv : (!jsTruthy req.userId || !jsTruthy req.email) = true
  · rw [if_pos hv] at h
    cases h
  · rw [if_neg hv] at h
    cases h
    exact checkoutConfig_unitAmount_pure req.companyName req.type req.isGala req.ticketType

/-- Witness for C5: a premium visitor request; the provider request built
by createSession charges exactly the resolved premium price. -/
theorem pricing_resolution_witness :
    (checkoutConfig "Acme" (some "visitor") false (some "premium")).unitAmount =
      resolvePrice (some "visitor") false (some "premium") ∧
    ({ customer_email := "a@b.c"
       client_reference_id := "user_5"
       unit_amount := 50000
       product_name := "Visitor Premium VIP Access: Acme"
       description := "Includes Gala Dinner, Lunch, Dinner, and Full Day VIP Access"
       success_url := "https://www.investariseglobal.com/visitor-form?success=true"
       cancel_url := "https://www.investariseglobal.com/visitor-form?canceled=true"
       meta_company_name := "Acme"
       meta_user_id := "user_5"
       meta_user_type := "visitor"
       meta_is_gala := "false"
       meta_ticket_type := "premium" } : SessionRequest).unit_amount =
      resolvePrice (some "visitor") false (some "premium") ∧
    resolvePrice (some "visitor") false (some "premium") = 50000 :=
  ⟨pricing_resolution.1 "Acme" (some "visitor") false (some "premium"),
   pricing_resolution.2.1
     ⟨some "user_5", some "a@b.c", "Acme", some "visitor", false, some "premium"⟩
     ⟨"a@b.c", "user_5", 50000, "Visitor Premium VIP Access: Acme",
      "Includes Gala Dinner, Lunch, Dinner, and Full Day VIP Access",
      "https://www.investariseglobal.com/visitor-form?success=true",
      "https://www.investariseglobal.com/visitor-form?canceled=true",
      "Acme", "user_5", "visitor", "false", "premium"⟩ (by decide),
   pricing_resolution.2.2.2.2.2.2.2 false⟩

/-- C9: createSession answers the validation failure (HTTP 400) whenever
the user id or the email is missing or empty, and in that case it makes
no call to the payment provider. -/
theorem createSession_missing_data_rejected (req : CreateReq)
    (h : jsTruthy req.userId = false ∨ jsTruthy req.email = false) :
    createSession req = CreateResult.validationError ∧
    CreateResult.httpStatus (createSession req) = some 400 ∧
    CreateResult.providerCalls (createSession req) = 0 := by
  have hc : (!jsTruthy req.userId || !jsTruthy req.email) = true := by
    rcases h with h | h <;> simp [h]
  have he : createSession req = CreateResult.validationError := by
    unfold createSession
    rw [if_pos hc]
  refine ⟨he, ?_, ?_⟩
  · rw [he]
    rfl
  · rw [he]
    rfl

/-- Witness for C9: a request with no user id but valid email is answered
400 with no provider call; the empty-string email case is likewise
covered by the hypothesis. -/
theorem createSession_missing_data_rejected_witness :
    createSession ⟨none, some "a@b.c", "Acme", some "founder", false, none⟩ =
      CreateResult.validationError ∧
    CreateResult.httpStatus
      (createSession ⟨none, some "a@b.c", "Acme", some "founder", false, none⟩) = some 400 ∧
    CreateResult.providerCalls
      (createSession ⟨none, some "a@b.c", "Acme", some "founder", false, none⟩) = 0 :=
  createSession_missing_data_rejected
    ⟨none, some "a@b.c", "Acme", some "founder", false, none⟩ (Or.inl rfl)

/-- C10: founder is the universal catch-all, not only the absent-field
fallback: a webhook event whose category metadata is any string other
than exhibitor, pitching or visitor has its update routed to the founder
table and touches no other table, and createSession prices any type
outside the four known categories at the founder default amount. -/
theorem founder_catch_all
    (ce : String → String → String → Except String Event)
    (raw sig secret now : String) (store : Store) (e : Event)
    (c nm : String) (t : Option String) (g : Bool) (tk : Option String)
    (hce : ce raw sig secret = Except.ok e)
    (ht : e.type = "checkout.session.completed")
    (hm : e.object.metadata.user_type = some c)
    (hc1 : c ≠ "exhibitor") (hc2 : c ≠ "pitching") (hc3 : c ≠ "visitor")
    (hp : isPaid (findRow (getTable store "founder_profiles")
            e.object.client_reference_id) = false)
    (hnm : nm ≠ "founder_profiles")
    (ht1 : t ≠ some "pitching") (ht2 : t ≠ some "exhibitor")
    (ht3 : t ≠ some "visitor") (ht4 : t ≠ some "founder") :
    tableOf (sessionUserType e.object) = "founder_profiles" ∧
    getTable (webhookHandler ce raw sig secret now store).store nm = getTable store nm ∧
    getTable (webhookHandler ce raw sig secret now store).store "founder_profiles" =
      updateRows (getTable store "founder_profiles") e.object.client_reference_id
        (mkUpdateData (sessionUserType e.object) (sessionIsGala e.object)
          e.object.metadata.ticket_type e.object.id now) ∧
    resolvePrice t g tk = resolvePrice (some "founder") false none := by
  have htab : tableOf (sessionUserType e.object) = "founder_profiles" := by
    simp only [sessionUserType]
    rw [hm]
    simp only [orDefault]
    by_cases h0 : c = ""
    · subst h0
      decide
    · simp only [beq_iff_eq, if_neg h0]
      simp [tableOf, hc1, hc2, hc3]
  have hh := webhookHandler_completed_unpaid ce raw sig secret now store e hce ht
    (by rw [htab]; exact hp)
  rw [htab] at hh
  have hprice : resolvePrice t g tk = 50000 := by
    simp [resolvePrice, checkoutConfig, ht1, ht2, ht3, ht4]
  refine ⟨htab, ?_, ?_, ?_⟩
  · rw [hh]
    exact getTable_setTable_ne store "founder_profiles" nm _ hnm
  · rw [hh]
    exact getTable_setTable_self store "founder_profiles" _
  · rw [hprice]
    rfl

/-- Witness for C10: a concrete event with category "sponsor" updates the
founder table, leaves the visitor table alone, and a createSession type
of "sponsor" is priced at the founder default. -/
theorem founder_catch_all_witness :
    tableOf (sessionUserType ⟨"cs_10", "user_9", ⟨some "sponsor", none, none⟩⟩) =
      "founder_profiles" ∧
    getTable (webhookHandler
        (fun _ _ _ => Except.ok
          ⟨"checkout.session.completed", ⟨"cs_10", "user_9", ⟨some "sponsor", none, none⟩⟩⟩)
        "rawbody" "sighdr" "whsec" "2026-01-02T00:00:00Z"
        [("founder_profiles", [("user_9", ⟨"unpaid", none, none, none, none⟩)]),
         ("visitor_profiles", [])]).store "visitor_profiles" =
      getTable
        [("founder_profiles", [("user_9", ⟨"unpaid", none, none, none, none⟩)]),
         ("visitor_profiles", [])] "visitor_profiles" ∧
    getTable (webhookHandler
        (fun _ _ _ => Except.ok
          ⟨"checkout.session.completed", ⟨"cs_10", "user_9", ⟨some "sponsor", none, none⟩⟩⟩)
        "rawbody" "sighdr" "whsec" "2026-01-02T00:00:00Z"
        [("founder_profiles", [("user_9", ⟨"unpaid", none, none, none, none⟩)]),
         ("visitor_profiles", [])]).store "founder_profiles" =
      updateRows
        (getTable
          [("founder_profiles", [("user_9", ⟨"unpaid", none, none, none, none⟩)]),
           ("visitor_profiles", [])] "founder_profiles") "user_9"
        (mkUpdateData (sessionUserType ⟨"cs_10", "user_9", ⟨some "sponsor", none, none⟩⟩)
          (sessionIsGala ⟨"cs_10", "user_9", ⟨some "sponsor", none, none⟩⟩)
          none "cs_10" "2026-01-02T00:00:00Z") ∧
    resolvePrice (some "sponsor") false none = resolvePrice (some "founder") false none :=
  founder_catch_all
    (fun _ _ _ => Except.ok
      ⟨"checkout.session.completed", ⟨"cs_10", "user_9", ⟨some "sponsor", none, none⟩⟩⟩)
    "rawbody" "sighdr" "whsec" "2026-01-02T00:00:00Z"
    [("founder_profiles", [("user_9", ⟨"unpaid", none, none, none, none⟩)]),
     ("visitor_profiles", [])]
    ⟨"checkout.session.completed", ⟨"cs_10", "user_9", ⟨some "sponsor", none, none⟩⟩⟩
    "sponsor" "visitor_profiles" (some "sponsor") false none
    rfl rfl rfl (by decide) (by decide) (by decide) (by decide) (by decide)
    (by decide) (by decide) (by decide) (by decide)

end DubaiBack
